import Mathlib

/-!
Verification of the retrieval core of the rag-documentation-navigator
repository (src/build_index.py and src/lambda_function/app.py).

Modelling conventions:
* Python floats are modelled as exact rationals; the only genuinely
  irrational operation in the source, the square root in
  cosine_similarity (app.py line 52-53, the 0.5 power), is modelled by
  Real.sqrt, so similarity scores live in the real numbers.
* Python list.sort with a key and reverse set (app.py line 125) is a
  stable descending sort; every stable sorting algorithm computes the
  same function, so it is modelled by insertion sort with the relation
  that keeps an earlier element in front of a later one of equal key.
* The dict-shaped records of the source keep their field names.
-/

/-! ### Data model (the index dicts built in build_index.py lines 68-104) -/

/-- The clean_metadata dict of build_index.py lines 93-96: base filename of the
origin document and a zero-based page number. -/
structure ChunkMetadata where
  source : String
  page : Int
deriving DecidableEq

/-- A chunk record as appended in build_index.py lines 99-104:
id, text (truncated to 1000 characters), embedding vector, metadata. -/
structure Chunk where
  id : Int
  text : String
  embedding : List ℚ
  metadata : ChunkMetadata
deriving DecidableEq

/-- The metadata dict of build_index.py lines 70-77. -/
structure IndexMetadata where
  total_chunks : Int
  embedding_model : String
  embedding_dimension : Int
  chunk_size : Int
  chunk_overlap : Int
  created_date : String
deriving DecidableEq

/-- The index_data dict of build_index.py lines 68-78: a chunk list plus the
store-level metadata. -/
structure IndexData where
  chunks : List Chunk
  metadata : IndexMetadata
deriving DecidableEq

/-! ### Cosine similarity (app.py lines 46-58) -/

/-- sum of a*b over zip(vec1, vec2) (app.py line 51); zip truncates to the
shorter vector. -/
def dotProduct (vec1 vec2 : List ℚ) : ℚ :=
  ((List.zip vec1 vec2).map fun p => p.1 * p.2).sum

/-- sum of a*a over a vector, the radicand of the norm (app.py lines 52-53). -/
def sumSq (vec : List ℚ) : ℚ :=
  (vec.map fun a => a * a).sum

/-- cosine_similarity of app.py lines 46-58: dot product over the product of
the Euclidean norms, with 0.0 returned when either norm is 0 (lines 55-56)
before any division happens. -/
noncomputable def cosine_similarity (vec1 vec2 : List ℚ) : ℝ :=
  let norm1 : ℝ := Real.sqrt (sumSq vec1)
  let norm2 : ℝ := Real.sqrt (sumSq vec2)
  if norm1 = 0 ∨ norm2 = 0 then 0
  else (dotProduct vec1 vec2 : ℝ) / (norm1 * norm2)

/-! ### Retrieval (app.py lines 92-135) -/

/-- The sort relation of app.py line 125: sort by the similarity field,
reverse set, so a pair with the larger score precedes; on equal scores the
original order is kept (Python sorts are stable). -/
def scoreLE (a b : Chunk × ℝ) : Prop := b.2 ≤ a.2

noncomputable instance scoreLE.decRel : DecidableRel scoreLE :=
  fun a b => Real.decidableLE b.2 a.2

/-- The similarities list built by the loop of app.py lines 115-122: a chunk
passes when its embedding field is present and non-empty (line 117), and is
paired with its cosine similarity to the query embedding (line 118). -/
noncomputable def score_chunks (query_embedding : List ℚ) (index : IndexData) :
    List (Chunk × ℝ) :=
  (index.chunks.filter fun c => !c.embedding.isEmpty).map
    fun c => (c, cosine_similarity query_embedding c.embedding)

/-- The stable descending sort of app.py line 125. -/
noncomputable def rank (l : List (Chunk × ℝ)) : List (Chunk × ℝ) :=
  List.insertionSort scoreLE l

/-- search_similar_chunks of app.py lines 92-131, after the query embedding
has been produced: score every chunk, sort by similarity descending
(line 125), keep the first top_k (line 126) and drop the scores (line 131). -/
noncomputable def search_similar_chunks (query_embedding : List ℚ)
    (index : IndexData) (top_k : Nat) : List Chunk :=
  ((rank (score_chunks query_embedding index)).take top_k).map fun p => p.1

/-- search_similar_chunks including the Bedrock embedding call of app.py
lines 100-112 and the surrounding try/except of lines 98 and 133-135: a
failing call is caught and yields the empty result list, and so does an
empty embedding in the response (lines 110-112). -/
noncomputable def search_similar_chunks_full (embed : Except String (List ℚ))
    (index : IndexData) (top_k : Nat) : List Chunk :=
  match embed with
  | Except.error _ => []
  | Except.ok query_embedding =>
    if query_embedding.isEmpty then []
    else search_similar_chunks query_embedding index top_k

/-! ### Index builder (build_index.py, create_optimized_index) -/

/-- A raw chunk as produced by the splitter (build_index.py line 53):
page content plus the loose source/page metadata read with dict.get
defaults at lines 94-95. -/
structure RawDoc where
  page_content : String
  source : Option String
  page : Option Int
deriving DecidableEq

/-- os.path.basename as used at build_index.py line 94: the component after
the last slash. -/
def basename (s : String) : String :=
  match (s.splitOn ("/")).getLast? with
  | some t => t
  | none => s

/-- Did the embedding call of build_index.py line 90 succeed? -/
def embedSucceeds (r : Except String (List ℚ)) : Bool :=
  match r with
  | Except.ok _ => true
  | Except.error _ => false

/-- One pass of the loop body of build_index.py lines 85-108 for the pair
(doc_index, doc): on embedding success the appended chunk record carries
id := doc_index (line 100), the text truncated to 1000 characters
(line 101), and the cleaned metadata (lines 93-96); on failure the chunk is
skipped (lines 106-108). -/
def mkChunk (embed : Nat → RawDoc → Except String (List ℚ))
    (p : Nat × RawDoc) : Option Chunk :=
  match embed p.1 p.2 with
  | Except.ok e =>
    some ⟨(p.1 : Int), p.2.page_content.take 1000, e,
      ⟨basename (p.2.source.getD ("unknown")), p.2.page.getD 0⟩⟩
  | Except.error _ => none

/-- The chunk list produced by the batched loop of build_index.py
lines 81-108.  The batching (range steps of 10 with an inner enumerate)
visits doc_index = i + j over 0, 1, ..., len(docs) - 1 in order, so it is
the plain enumeration of the docs. -/
def build_chunks (embed : Nat → RawDoc → Except String (List ℚ))
    (docs : List RawDoc) : List Chunk :=
  docs.enum.filterMap (mkChunk embed)

/-- The index dict produced by create_optimized_index, build_index.py
lines 68-108: the metadata is built first (lines 70-77) with
total_chunks := len(docs), before any embedding is attempted, and the
chunk list is then filled by the loop. -/
def create_optimized_index (embed : Nat → RawDoc → Except String (List ℚ))
    (docs : List RawDoc) (created_date : String) : IndexData :=
  ⟨build_chunks embed docs,
   ⟨(docs.length : Int), "amazon.titan-embed-text-v1", 1536, 1000, 100,
    created_date⟩⟩

/-! ### Serializer (build_index.py lines 119-132, app.py lines 75-83)

The source serializes with json.dumps followed by gzip.compress and
deserializes with gzip.decompress followed by json.loads.  The gzip pair
and the JSON text printer/parser pair are exact library inverses on the
values involved, so the byte layer is modelled by the JSON value itself:
encode builds the JSON structure the source dumps, decode reads the typed
store back out of a JSON value. -/

/-- JSON values, the shape json.dumps writes and json.loads returns. -/
inductive Json where
  | null : Json
  | bool (b : Bool) : Json
  | num (q : ℚ) : Json
  | str (s : String) : Json
  | arr (xs : List Json) : Json
  | obj (fields : List (String × Json)) : Json

/-- Field lookup in a JSON object, as dict access on a parsed value. -/
def findField (k : String) : List (String × Json) → Option Json
  | [] => none
  | (k2, v) :: t => if k = k2 then some v else findField k t

/-- Field access on a JSON value. -/
def Json.getField (j : Json) (k : String) : Option Json :=
  match j with
  | Json.obj fields => findField k fields
  | _ => none

/-- Read a JSON number back as a rational. -/
def jsonToRat (j : Json) : Option ℚ :=
  match j with
  | Json.num q => some q
  | _ => none

/-- Read a JSON number back as an integer. -/
def jsonToInt (j : Json) : Option Int :=
  match j with
  | Json.num q => if q.den = 1 then some q.num else none
  | _ => none

/-- Read a JSON string back. -/
def jsonToStr (j : Json) : Option String :=
  match j with
  | Json.str s => some s
  | _ => none

/-- Read an embedding array back. -/
def parseRats : List Json → Option (List ℚ)
  | [] => some []
  | j :: t => do
    let q ← jsonToRat j
    let r ← parseRats t
    pure (q :: r)

/-- The JSON object written for one chunk (build_index.py lines 99-104). -/
def chunkToJson (c : Chunk) : Json :=
  Json.obj [("id", Json.num (c.id : ℚ)), ("text", Json.str c.text),
    ("embedding", Json.arr (c.embedding.map Json.num)),
    ("metadata", Json.obj [("source", Json.str c.metadata.source),
      ("page", Json.num (c.metadata.page : ℚ))])]

/-- Read one chunk object back. -/
def chunkFromJson (j : Json) : Option Chunk := do
  let i ← jsonToInt (← j.getField ("id"))
  let t ← jsonToStr (← j.getField ("text"))
  let e ← (match ← j.getField ("embedding") with
    | Json.arr xs => parseRats xs
    | _ => none)
  let m ← j.getField ("metadata")
  let s ← jsonToStr (← m.getField ("source"))
  let p ← jsonToInt (← m.getField ("page"))
  pure ⟨i, t, e, ⟨s, p⟩⟩

/-- Read a chunk array back. -/
def parseChunks : List Json → Option (List Chunk)
  | [] => some []
  | j :: t => do
    let c ← chunkFromJson j
    let r ← parseChunks t
    pure (c :: r)

/-- The JSON object written for the store metadata (build_index.py
lines 70-77). -/
def metadataToJson (m : IndexMetadata) : Json :=
  Json.obj [("total_chunks", Json.num (m.total_chunks : ℚ)),
    ("embedding_model", Json.str m.embedding_model),
    ("embedding_dimension", Json.num (m.embedding_dimension : ℚ)),
    ("chunk_size", Json.num (m.chunk_size : ℚ)),
    ("chunk_overlap", Json.num (m.chunk_overlap : ℚ)),
    ("created_date", Json.str m.created_date)]

/-- Read the store metadata back. -/
def metadataFromJson (j : Json) : Option IndexMetadata := do
  let tc ← jsonToInt (← j.getField ("total_chunks"))
  let em ← jsonToStr (← j.getField ("embedding_model"))
  let ed ← jsonToInt (← j.getField ("embedding_dimension"))
  let cs ← jsonToInt (← j.getField ("chunk_size"))
  let co ← jsonToInt (← j.getField ("chunk_overlap"))
  let cd ← jsonToStr (← j.getField ("created_date"))
  pure ⟨tc, em, ed, cs, co, cd⟩

/-- encode: the JSON structure json.dumps(index_data) serializes at
build_index.py line 120 (the dict literal of lines 68-78: chunks first,
then metadata). -/
def encode (d : IndexData) : Json :=
  Json.obj [("chunks", Json.arr (d.chunks.map chunkToJson)),
    ("metadata", metadataToJson d.metadata)]

/-- decode: reading the typed store back out of the JSON value returned by
json.loads at app.py line 83. -/
def decode (j : Json) : Option IndexData := do
  let cj ← j.getField ("chunks")
  let chunks ← (match cj with
    | Json.arr xs => parseChunks xs
    | _ => none)
  let m ← metadataFromJson (← j.getField ("metadata"))
  pure ⟨chunks, m⟩

/-! ### Build pipeline after the embedding loop (build_index.py
lines 110-162) -/

/-- Outcome of a run of create_optimized_index: the early return when no
documents were loaded (lines 27-30), a successful compress-and-upload
(lines 119-157), or the early return after an S3 failure (lines 159-162).
Nothing between the embedding loop and the upload inspects whether any
chunk succeeded. -/
inductive BuildOutcome where
  | noDocuments : BuildOutcome
  | published (store : IndexData) (blob : Json) : BuildOutcome
  | uploadFailed (store : IndexData) : BuildOutcome

/-- The whole builder run: documents_empty models the check of line 27 on
the loaded documents, s3ok whether the put_object of lines 141-151
succeeds. -/
def run_build (embed : Nat → RawDoc → Except String (List ℚ))
    (documents_empty : Bool) (docs : List RawDoc) (s3ok : Bool)
    (created_date : String) : BuildOutcome :=
  if documents_empty then BuildOutcome.noDocuments
  else
    let store := create_optimized_index embed docs created_date
    if s3ok then BuildOutcome.published store (encode store)
    else BuildOutcome.uploadFailed store

/-! ### Index cache (app.py lines 43-90, load_index) -/

/-- load_index of app.py lines 60-90 over an explicit cache cell: a warm
cache is returned at once (lines 67-69) without touching S3; otherwise the
fetch-and-decode capability runs (lines 75-83) and on success its result is
stored in the cache (line 83); a failing fetch re-raises (lines 88-90) and
leaves the cache untouched.  The result triple is (outcome, new cache,
whether the loader capability was invoked). -/
def load_index (cache : Option IndexData) (fetch : Except String IndexData) :
    Except String IndexData × Option IndexData × Bool :=
  match cache with
  | some idx => (Except.ok idx, some idx, false)
  | none =>
    match fetch with
    | Except.ok idx => (Except.ok idx, some idx, true)
    | Except.error e => (Except.error e, none, true)

/-- A sequence of load_index calls threading the cache cell, returning the
individual outcomes, the final cache and how often the loader ran. -/
def run_loads (cache : Option IndexData) :
    List (Except String IndexData) →
      List (Except String IndexData) × Option IndexData × Nat
  | [] => ([], cache, 0)
  | f :: fs =>
    let step := load_index cache f
    let rest := run_loads step.2.1 fs
    (step.1 :: rest.1, rest.2.1, (if step.2.2 then 1 else 0) + rest.2.2)

/-! ### Lambda handler (app.py lines 272-407) -/

/-- The external calls the handler can make, in order of occurrence. -/
inductive ExtCall where
  | s3Fetch : ExtCall
  | embedCall : ExtCall
  | generateCall : ExtCall
  | metricsCall : ExtCall
deriving DecidableEq

/-- Outcome of json.loads(event.get("body", "{}")) at app.py line 318:
either the body is not valid JSON (JSONDecodeError, handled at lines
381-390), or it parses to an object whose optional question field is read
with body.get("question", "") at line 319. -/
inductive RequestBody where
  | invalid : RequestBody
  | valid (question : Option String) : RequestBody
deriving DecidableEq

/-- The fields of the API Gateway event the handler reads. -/
structure LambdaEvent where
  headers : List (String × String)
  httpMethod : String
  body : RequestBody
deriving DecidableEq

/-- The observable part of a handler response: the status code and the
error / answer fields of the JSON body. -/
structure HandlerResponse where
  statusCode : Nat
  error : Option String
  answer : Option String
deriving DecidableEq

/-- Python str.strip as called at app.py line 319: drop leading and
trailing whitespace characters. -/
def pyStrip (s : String) : String :=
  String.mk
    (((s.toList.dropWhile Char.isWhitespace).reverse.dropWhile
        Char.isWhitespace).reverse)

/-- Python truthiness fallback of app.py line 292:
headers.get ... or headers.get ..., where None and the empty string are
falsy. -/
def pyOr (a b : Option String) : Option String :=
  match a with
  | some s => if s = "" then b else some s
  | none => b

/-- provided_api_key of app.py line 292. -/
def providedApiKey (headers : List (String × String)) : Option String :=
  pyOr (List.lookup ("x-api-key") headers) (List.lookup ("X-Api-Key") headers)

/-- The API key test of app.py line 295: fails when the provided key is
missing or empty, or when it differs from the VALID_API_KEY environment
value (comparison with an unset environment variable is always unequal). -/
def authorized (validApiKey : Option String) (headers : List (String × String)) :
    Bool :=
  match providedApiKey headers with
  | none => false
  | some s =>
    if s = "" then false
    else
      match validApiKey with
      | none => false
      | some v => s = v

/-- The canned reply of app.py line 344, returned when no relevant chunks
were found. -/
def CANNED_ANSWER : String :=
  "No relevant information found in the documentation for your question."

/-- Steps 3-6 of the handler (app.py lines 336-379) once the index is
available: retrieval (with the embedded query), the canned 200 reply on an
empty result (lines 339-349), otherwise generation
(generate_answer_with_tracking catches its own failures at lines 236-238
and turns them into an answer string) followed by the CloudWatch metrics
call, and a 200 response. -/
noncomputable def handle_query (index : IndexData) (newCache : Option IndexData)
    (calls : List ExtCall) (embed : Except String (List ℚ))
    (generate : Except String String) :
    HandlerResponse × Option IndexData × List ExtCall :=
  let relevant := search_similar_chunks_full embed index 5
  let calls := calls ++ [ExtCall.embedCall]
  if relevant.isEmpty then
    (⟨200, none, some CANNED_ANSWER⟩, newCache, calls)
  else
    match generate with
    | Except.ok ans =>
      (⟨200, none, some ans⟩, newCache,
       calls ++ [ExtCall.generateCall, ExtCall.metricsCall])
    | Except.error msg =>
      (⟨200, none, some ("Error generating response: " ++ msg)⟩, newCache,
       calls ++ [ExtCall.generateCall, ExtCall.metricsCall])

/-- lambda_handler of app.py lines 272-407, over explicit capabilities: the
API key gate (lines 290-304) runs first, then the OPTIONS preflight branch
(lines 308-314), then body parsing and question validation (lines 316-329),
then the index load (line 334, via the cache), then retrieval and
generation.  A failing index load propagates to the generic handler of
lines 392-407 and becomes a 500.  The third component records the external
calls made. -/
noncomputable def lambda_handler (validApiKey : Option String)
    (event : LambdaEvent) (cache : Option IndexData)
    (fetchIndex : Except String IndexData) (embed : Except String (List ℚ))
    (generate : Except String String) :
    HandlerResponse × Option IndexData × List ExtCall :=
  if authorized validApiKey event.headers = false then
    (⟨401, some ("Unauthorized"), none⟩, cache, [])
  else if event.httpMethod = "OPTIONS" then
    (⟨200, none, none⟩, cache, [])
  else
    match event.body with
    | RequestBody.invalid => (⟨400, some ("Invalid JSON"), none⟩, cache, [])
    | RequestBody.valid qOpt =>
      let question := pyStrip (qOpt.getD (""))
      if question = "" then
        (⟨400, some ("Missing \x27question\x27 parameter"), none⟩, cache, [])
      else
        let step := load_index cache fetchIndex
        let calls := if step.2.2 then [ExtCall.s3Fetch] else []
        match step.1 with
        | Except.error _ =>
          (⟨500, some ("Internal server error"), none⟩, step.2.1, calls)
        | Except.ok index => handle_query index step.2.1 calls embed generate

/-! ### Auxiliary relation and concrete fixtures used by the theorems -/

/-- The order the spec asks of the result list: strictly larger score
first, ties broken by ascending chunk id. -/
def RankedLex (a b : Chunk × ℝ) : Prop :=
  b.2 < a.2 ∨ (a.2 = b.2 ∧ a.1.id < b.1.id)

/-- Two raw chunks for the partial-failure build scenarios. -/
def docsPair : List RawDoc :=
  [⟨"alpha", some ("data/a.pdf"), some 0⟩,
   ⟨"beta", some ("data/a.pdf"), some 1⟩]

/-- An embedding capability failing exactly on input index 1. -/
def embedFailSecond : Nat → RawDoc → Except String (List ℚ) :=
  fun i _ => if i = 1 then Except.error ("quota") else Except.ok [1]

/-- Ten raw chunks for the renumbering scenario of the spec. -/
def docsTen : List RawDoc :=
  (List.range 10).map fun i => ⟨toString i, some ("data/doc.pdf"), some 0⟩

/-- An embedding capability failing exactly on input indices 3 and 7. -/
def embedFailThreeSeven : Nat → RawDoc → Except String (List ℚ) :=
  fun i _ =>
    if i = 3 ∨ i = 7 then Except.error ("quota") else Except.ok [(i : ℚ)]

/-- A single raw chunk. -/
def docSingle : RawDoc := ⟨"gamma", some ("data/g.pdf"), some 0⟩

/-- An embedding capability that always fails. -/
def embedAlwaysFail : Nat → RawDoc → Except String (List ℚ) :=
  fun _ _ => Except.error ("down")

/-- A chunk with a three-dimensional embedding. -/
def chunkDimThree : Chunk := ⟨0, "alpha", [1, 0, 0], ⟨"a.pdf", 0⟩⟩

/-- A store whose declared embedding dimension is 3. -/
def storeDimThree : IndexData :=
  ⟨[chunkDimThree], ⟨1, "amazon.titan-embed-text-v1", 3, 1000, 100, "now"⟩⟩

/-- A store with one chunk of a one-dimensional embedding. -/
def storeSmall : IndexData :=
  ⟨[⟨0, "alpha", [1], ⟨"a.pdf", 0⟩⟩],
   ⟨1, "amazon.titan-embed-text-v1", 1536, 1000, 100, "now"⟩⟩

/-- A well-formed POST event carrying a valid key and a question. -/
def eventOk : LambdaEvent :=
  ⟨[("x-api-key", "k")], "POST", RequestBody.valid (some ("how do I"))⟩

/-! ### Theorems -/

theorem sumSq_nonneg (v : List ℚ) : 0 ≤ sumSq v := by
  apply List.sum_nonneg
  intro x hx
  simp only [List.mem_map] at hx
  obtain ⟨a, _, rfl⟩ := hx
  exact mul_self_nonneg a

theorem sqrt_sumSq_eq_zero_iff (v : List ℚ) :
    Real.sqrt (sumSq v) = 0 ↔ sumSq v = 0 := by
  rw [Real.sqrt_eq_zero']
  constructor
  · intro h
    have h2 : (0 : ℝ) ≤ (sumSq v : ℝ) := by exact_mod_cast sumSq_nonneg v
    exact_mod_cast le_antisymm h h2
  · intro h
    rw [h]
    simp

/-- C2: for every pair of vectors where either vector has Euclidean norm
zero (equivalently, a zero sum of squares, in particular the zero vector
paired with anything), cosine_similarity returns exactly 0; and whenever
the guard of app.py lines 55-56 does not fire, the denominator of the
division at line 58 is non-zero, so no division by zero is performed and no
NaN can arise. -/
theorem cosine_similarity_zero_norm_guard (v1 v2 : List ℚ) :
    ((sumSq v1 = 0 ∨ sumSq v2 = 0) → cosine_similarity v1 v2 = 0)
  ∧ (sumSq v1 ≠ 0 → sumSq v2 ≠ 0 →
      Real.sqrt (sumSq v1) * Real.sqrt (sumSq v2) ≠ 0
      ∧ cosine_similarity v1 v2
          = (dotProduct v1 v2 : ℝ)
              / (Real.sqrt (sumSq v1) * Real.sqrt (sumSq v2))) := by
  constructor
  · intro h
    unfold cosine_similarity
    rw [if_pos]
    rcases h with h | h
    · exact Or.inl ((sqrt_sumSq_eq_zero_iff v1).mpr h)
    · exact Or.inr ((sqrt_sumSq_eq_zero_iff v2).mpr h)
  · intro h1 h2
    have q1 : (0 : ℚ) < sumSq v1 := (sumSq_nonneg v1).lt_of_ne (Ne.symm h1)
    have q2 : (0 : ℚ) < sumSq v2 := (sumSq_nonneg v2).lt_of_ne (Ne.symm h2)
    have p1 : 0 < Real.sqrt (sumSq v1) := Real.sqrt_pos.mpr (by exact_mod_cast q1)
    have p2 : 0 < Real.sqrt (sumSq v2) := Real.sqrt_pos.mpr (by exact_mod_cast q2)
    refine ⟨(mul_pos p1 p2).ne', ?_⟩
    unfold cosine_similarity
    rw [if_neg]
    rw [not_or]
    exact ⟨p1.ne', p2.ne'⟩

/-- Witness for C2 at the zero vector [0, 0] against [1, 2]. -/
theorem cosine_similarity_zero_norm_guard_witness :
    sumSq [0, 0] = 0 ∧ cosine_similarity [0, 0] [1, 2] = 0 :=
  ⟨by norm_num [sumSq],
   (cosine_similarity_zero_norm_guard [0, 0] [1, 2]).1
     (Or.inl (by norm_num [sumSq]))⟩

/-- C9: the index cache memoizes only success: with a populated cache every
later call returns the cached store and never invokes the loader, a failing
load from an empty cache leaves the cache empty (so the next call retries),
and a successful load populates the cache. -/
theorem index_cache_success_only_memoization :
    (∀ (idx : IndexData) (fs : List (Except String IndexData)),
      run_loads (some idx) fs = (fs.map fun _ => Except.ok idx, some idx, 0))
  ∧ (∀ e : String,
      load_index none (Except.error e) = (Except.error e, none, true))
  ∧ (∀ idx : IndexData,
      load_index none (Except.ok idx) = (Except.ok idx, some idx, true)) := by
  refine ⟨?_, fun e => rfl, fun idx => rfl⟩
  intro idx fs
  induction fs with
  | nil => rfl
  | cons f fs ih => simp [run_loads, load_index, ih]

/-- C10: any request without a valid API key is answered with 401 before
anything else happens: the cache is untouched, no external call is made,
and in particular the OPTIONS preflight branch is never reached, since the
key check of app.py lines 290-304 precedes the OPTIONS check of
lines 308-314. -/
theorem unauthorized_rejected_before_processing (validApiKey : Option String)
    (event : LambdaEvent) (cache : Option IndexData)
    (fetchIndex : Except String IndexData) (embed : Except String (List ℚ))
    (generate : Except String String)
    (h : authorized validApiKey event.headers = false) :
    lambda_handler validApiKey event cache fetchIndex embed generate
      = (⟨401, some ("Unauthorized"), none⟩, cache, []) := by
  unfold lambda_handler
  rw [if_pos h]

/-- Witness for C10: an OPTIONS preflight without any key gets the 401,
not the 200 of the preflight branch. -/
theorem unauthorized_rejected_before_processing_witness :
    authorized (some ("secret"))
        (LambdaEvent.mk [] "OPTIONS" (RequestBody.valid (some ("hi")))).headers
      = false
  ∧ lambda_handler (some ("secret"))
        ⟨[], "OPTIONS", RequestBody.valid (some ("hi"))⟩ none
        (Except.error ("no index")) (Except.error ("no embed"))
        (Except.error ("no gen"))
      = (⟨401, some ("Unauthorized"), none⟩, none, []) :=
  ⟨rfl, unauthorized_rejected_before_processing _ _ _ _ _ _ rfl⟩

/-- C3: evaluation of the builder at the failing input of the claim: with
two raw chunks and the embedding failing on input index 1, the produced
metadata records total_chunks = 2 (the input count, fixed at
build_index.py line 71 before the embedding loop runs) while the store
holds a single chunk; the claim demands total_chunks = 1. -/
theorem total_chunks_records_input_count :
    (create_optimized_index embedFailSecond docsPair ("now")).metadata.total_chunks
        = 2
  ∧ ((create_optimized_index embedFailSecond docsPair ("now")).chunks).length
        = 1 :=
  ⟨rfl, rfl⟩

theorem build_ids_aux (embed : Nat → RawDoc → Except String (List ℚ)) :
    ∀ l : List (Nat × RawDoc),
      (l.filterMap (mkChunk embed)).map (fun c => c.id)
        = (l.filter fun p => embedSucceeds (embed p.1 p.2)).map
            fun p => (p.1 : Int)
  | [] => rfl
  | p :: t => by
    have ih := build_ids_aux embed t
    cases h : embed p.1 p.2 with
    | ok e =>
      simp [List.filterMap_cons, List.filter_cons, mkChunk, embedSucceeds, h, ih]
    | error err =>
      simp [List.filterMap_cons, List.filter_cons, mkChunk, embedSucceeds, h, ih]

/-- C4 counterexample: with ten raw chunks and embedding failures exactly at
input indices 3 and 7, the built store has eight chunks whose ids are the
original input indices 0,1,2,4,5,6,8,9 (build_index.py line 100 stores
doc_index itself), not the renumbered sequence 0..7 the claim states. -/
theorem build_ids_not_renumbered_cex :
    (build_chunks embedFailThreeSeven docsTen).map (fun c => c.id)
        = [0, 1, 2, 4, 5, 6, 8, 9]
  ∧ (build_chunks embedFailThreeSeven docsTen).length = 8
  ∧ (build_chunks embedFailThreeSeven docsTen).map (fun c => c.id)
        ≠ [0, 1, 2, 3, 4, 5, 6, 7] := by
  refine ⟨by decide, by decide, by decide⟩

/-- C4 amended: chunk ids are the original 0-based input indices of the
chunks whose embedding succeeded, kept in input order (sparse when
failures occur), not a renumbering by append order. -/
theorem build_ids_preserve_input_index
    (embed : Nat → RawDoc → Except String (List ℚ)) (docs : List RawDoc) :
    (build_chunks embed docs).map (fun c => c.id)
      = ((docs.enum.filter fun p => embedSucceeds (embed p.1 p.2)).map
          fun p => (p.1 : Int)) :=
  build_ids_aux embed docs.enum

/-- C6 counterexample: with one raw chunk whose embedding fails, zero chunks
succeed, yet the build run completes as a successful publication of the
empty store — no EmptyIndexError exists between the loop of build_index.py
lines 82-108 and the serialization of lines 119-132. -/
theorem empty_index_published_cex :
    run_build embedAlwaysFail false [docSingle] true ("now")
        = BuildOutcome.published
            (create_optimized_index embedAlwaysFail [docSingle] ("now"))
            (encode (create_optimized_index embedAlwaysFail [docSingle] ("now")))
  ∧ (create_optimized_index embedAlwaysFail [docSingle] ("now")).chunks = [] :=
  ⟨rfl, rfl⟩

/-- C6 amended: the builder never checks for zero successful embeddings:
whenever every embedding call fails, the produced store has an empty chunk
list and is still serialized and uploaded as a normal publication. -/
theorem zero_success_build_publishes_empty
    (embed : Nat → RawDoc → Except String (List ℚ)) (docs : List RawDoc)
    (created_date : String)
    (hfail : ∀ p ∈ docs.enum, embedSucceeds (embed p.1 p.2) = false) :
    (create_optimized_index embed docs created_date).chunks = []
  ∧ run_build embed false docs true created_date
      = BuildOutcome.published (create_optimized_index embed docs created_date)
          (encode (create_optimized_index embed docs created_date)) := by
  constructor
  · show build_chunks embed docs = []
    unfold build_chunks
    apply List.filterMap_eq_nil_iff.mpr
    intro p hp
    have h := hfail p hp
    unfold mkChunk
    cases he : embed p.1 p.2 with
    | ok e =>
      rw [he] at h
      simp [embedSucceeds] at h
    | error err => rfl
  · rfl

/-- Witness for C6 at the concrete all-failing build. -/
theorem zero_success_build_publishes_empty_witness :
    (∀ p ∈ ([docSingle] : List RawDoc).enum,
        embedSucceeds (embedAlwaysFail p.1 p.2) = false)
  ∧ ((create_optimized_index embedAlwaysFail [docSingle] ("later")).chunks = []
      ∧ run_build embedAlwaysFail false [docSingle] true ("later")
          = BuildOutcome.published
              (create_optimized_index embedAlwaysFail [docSingle] ("later"))
              (encode (create_optimized_index embedAlwaysFail [docSingle]
                ("later")))) :=
  ⟨by decide,
   zero_success_build_publishes_empty embedAlwaysFail [docSingle] ("later")
     (by decide)⟩

theorem zip_truncates :
    ∀ v1 v2 : List ℚ,
      List.zip v1 v2 = List.zip (v1.take v2.length) (v2.take v1.length)
  | [], v2 => by simp
  | v1, [] => by simp
  | a :: t1, b :: t2 => by
    simp only [List.length_cons, List.take_succ_cons, List.zip_cons_cons]
    rw [zip_truncates t1 t2]

/-- C5 counterexample: a query vector of length 2 against a store whose
declared embedding dimension is 3 is not rejected: retrieval returns the
chunk, and the similarity score actually computed for the mismatched pair
is a non-zero number, not an error. -/
theorem dimension_mismatch_no_error_cex :
    search_similar_chunks [1, 2] storeDimThree 5 = [chunkDimThree]
  ∧ cosine_similarity [1, 2] [1, 0, 0] ≠ 0 := by
  constructor
  · rfl
  · have h5 : sumSq [1, 2] = (5 : ℚ) := by norm_num [sumSq]
    have h1 : sumSq [1, 0, 0] = (1 : ℚ) := by norm_num [sumSq]
    have hd : dotProduct [1, 2] [1, 0, 0] = (1 : ℚ) := by
      norm_num [dotProduct, List.zip]
    unfold cosine_similarity
    rw [h5, h1, hd]
    have hs5 : Real.sqrt ((5 : ℚ) : ℝ) ≠ 0 := by
      rw [Real.sqrt_ne_zero']
      norm_num
    have hs1 : Real.sqrt ((1 : ℚ) : ℝ) = 1 := by
      norm_num [Real.sqrt_one]
    rw [if_neg]
    · rw [hs1]
      push_cast
      rw [mul_one]
      exact div_ne_zero one_ne_zero hs5
    · rw [not_or]
      exact ⟨hs5, by rw [hs1]; exact one_ne_zero⟩

/-- C5 amended: retrieval performs no dimensionality check and raises no
error on a query whose length differs from the declared store dimension:
it returns min(k, number of scorable chunks) results as always, the
mismatched vectors being scored over the zip-truncated common prefix. -/
theorem retrieval_ignores_dimension_mismatch (q : List ℚ) (index : IndexData)
    (k : Nat)
    (hdim : (q.length : Int) ≠ index.metadata.embedding_dimension) :
    (search_similar_chunks q index k).length
      = min k ((index.chunks.filter fun c => !c.embedding.isEmpty).length)
  ∧ ∀ v : List ℚ,
      dotProduct q v = dotProduct (q.take v.length) (v.take q.length) := by
  constructor
  · unfold search_similar_chunks rank score_chunks
    rw [List.length_map, List.length_take, List.length_insertionSort,
      List.length_map]
  · intro v
    unfold dotProduct
    rw [← zip_truncates]

/-- Witness for C5 amended at the length-2 query and dimension-3 store. -/
theorem retrieval_ignores_dimension_mismatch_witness :
    ((([1, 2] : List ℚ).length : Int) ≠ storeDimThree.metadata.embedding_dimension)
  ∧ ((search_similar_chunks [1, 2] storeDimThree 5).length
        = min 5 ((storeDimThree.chunks.filter fun c => !c.embedding.isEmpty).length)
      ∧ ∀ v : List ℚ,
          dotProduct [1, 2] v
            = dotProduct (([1, 2] : List ℚ).take v.length)
                (v.take ([1, 2] : List ℚ).length)) :=
  ⟨by decide, retrieval_ignores_dimension_mismatch [1, 2] storeDimThree 5
    (by decide)⟩

/-- C7 counterexample: a fully well-formed request whose embedding call
fails is answered with status 200 and the canned not-found body, not with
any 502-equivalent error signal: the except of app.py lines 133-135 turns
the failure into an empty result list and the handler takes the
lines 339-349 branch. -/
theorem embed_failure_returns_200_cex :
    (lambda_handler (some ("k")) eventOk (some storeSmall)
        (Except.error ("unused")) (Except.error ("embedding producer down"))
        (Except.ok ("unused"))).1
      = ⟨200, none, some CANNED_ANSWER⟩
  ∧ (lambda_handler (some ("k")) eventOk (some storeSmall)
        (Except.error ("unused")) (Except.error ("embedding producer down"))
        (Except.ok ("unused"))).1.statusCode ≠ 502 :=
  ⟨rfl, by decide⟩

/-- C7 amended: for every request that passes the key check, is not a
preflight, carries a non-empty question, and for which the index is
available (cached or fetched), a failing embedding producer is swallowed:
the handler replies 200 with the canned not-found answer instead of any
502-equivalent upstream-failure signal. -/
theorem embed_failure_swallowed_canned_200 (validApiKey : Option String)
    (event : LambdaEvent) (cache : Option IndexData)
    (fetchIndex : Except String IndexData) (generate : Except String String)
    (e : String) (q : String) (idx : IndexData)
    (hauth : authorized validApiKey event.headers = true)
    (hmeth : event.httpMethod ≠ "OPTIONS")
    (hbody : event.body = RequestBody.valid (some q))
    (hq : pyStrip q ≠ "")
    (hload : cache = some idx ∨ (cache = none ∧ fetchIndex = Except.ok idx)) :
    (lambda_handler validApiKey event cache fetchIndex (Except.error e)
        generate).1
      = ⟨200, none, some CANNED_ANSWER⟩ := by
  rcases hload with rfl | ⟨rfl, rfl⟩
  · simp only [lambda_handler, hauth, hbody, Bool.true_eq_false, if_false,
      Option.getD_some]
    rw [if_neg hmeth, if_neg hq]
    simp [load_index, handle_query, search_similar_chunks_full]
  · simp only [lambda_handler, hauth, hbody, Bool.true_eq_false, if_false,
      Option.getD_some]
    rw [if_neg hmeth, if_neg hq]
    simp [load_index, handle_query, search_similar_chunks_full]

/-- Witness for C7 amended at the concrete failing-embedder request. -/
theorem embed_failure_swallowed_canned_200_witness :
    authorized (some ("k")) eventOk.headers = true
  ∧ eventOk.httpMethod ≠ "OPTIONS"
  ∧ eventOk.body = RequestBody.valid (some ("how do I"))
  ∧ pyStrip ("how do I") ≠ ""
  ∧ (lambda_handler (some ("k")) eventOk (some storeSmall)
        (Except.error ("x")) (Except.error ("down")) (Except.ok ("y"))).1
      = ⟨200, none, some CANNED_ANSWER⟩ :=
  ⟨rfl, by decide, rfl, by decide,
   embed_failure_swallowed_canned_200 (some ("k")) eventOk (some storeSmall)
     (Except.error ("x")) (Except.ok ("y")) ("down") ("how do I") storeSmall
     rfl (by decide) rfl (by decide) (Or.inl rfl)⟩

theorem parseRats_map_num (l : List ℚ) : parseRats (l.map Json.num) = some l := by
  induction l with
  | nil => rfl
  | cons a t ih => simp [parseRats, jsonToRat, ih]

theorem chunkFromJson_chunkToJson (c : Chunk) :
    chunkFromJson (chunkToJson c) = some c := by
  simp [chunkToJson, chunkFromJson, Json.getField, findField, jsonToInt,
    jsonToStr, parseRats_map_num, Rat.den_intCast, Rat.num_intCast]

theorem parseChunks_map_toJson (l : List Chunk) :
    parseChunks (l.map chunkToJson) = some l := by
  induction l with
  | nil => rfl
  | cons c t ih => simp [parseChunks, chunkFromJson_chunkToJson, ih]

theorem metadataFromJson_metadataToJson (m : IndexMetadata) :
    metadataFromJson (metadataToJson m) = some m := by
  simp [metadataToJson, metadataFromJson, Json.getField, findField, jsonToInt,
    jsonToStr, Rat.den_intCast, Rat.num_intCast]

/-- C8: decoding the encoded store yields the original store, for every
store and in particular for one with an empty chunk list (universally
quantified, so the empty-chunks edge case is included). -/
theorem serializer_round_trip (store : IndexData) :
    decode (encode store) = some store := by
  simp [encode, decode, Json.getField, findField, parseChunks_map_toJson,
    metadataFromJson_metadataToJson]

theorem rankedlex_orderedInsert (x : Chunk × ℝ) :
    ∀ l : List (Chunk × ℝ), l.Pairwise RankedLex →
      (∀ y ∈ l, x.1.id < y.1.id) →
      (List.orderedInsert scoreLE x l).Pairwise RankedLex
  | [], _, _ => by simp
  | b :: t, hl, hx => by
    rcases List.pairwise_cons.mp hl with ⟨hbt, ht⟩
    by_cases h : scoreLE x b
    · rw [List.orderedInsert, if_pos h]
      have hble : ∀ y ∈ b :: t, y.2 ≤ x.2 := by
        intro y hy
        rcases List.mem_cons.mp hy with rfl | hyt
        · exact h
        · rcases hbt y hyt with hlt | ⟨heq, _⟩
          · exact le_trans hlt.le h
          · rw [← heq]
            exact h
      apply List.pairwise_cons.mpr
      refine ⟨?_, hl⟩
      intro y hy
      rcases lt_or_eq_of_le (hble y hy) with hlt | heq2
      · exact Or.inl hlt
      · exact Or.inr ⟨heq2.symm, hx y hy⟩
    · rw [List.orderedInsert, if_neg h]
      have hxb : x.2 < b.2 := lt_of_not_le h
      apply List.pairwise_cons.mpr
      constructor
      · intro y hy
        rcases (List.mem_orderedInsert scoreLE).mp hy with rfl | hyt
        · exact Or.inl hxb
        · exact hbt y hyt
      · exact rankedlex_orderedInsert x t ht
          (fun y hy => hx y (List.mem_cons_of_mem b hy))

theorem rankedlex_insertionSort :
    ∀ l : List (Chunk × ℝ), l.Pairwise (fun a b => a.1.id < b.1.id) →
      (List.insertionSort scoreLE l).Pairwise RankedLex
  | [], _ => by simp
  | x :: t, h => by
    rcases List.pairwise_cons.mp h with ⟨hx, ht⟩
    rw [List.insertionSort]
    apply rankedlex_orderedInsert
    · exact rankedlex_insertionSort t ht
    · intro y hy
      exact hx y ((List.mem_insertionSort scoreLE).mp hy)

theorem score_chunks_pairwise_id (q : List ℚ) (index : IndexData)
    (hids : index.chunks.Pairwise fun a b => a.id < b.id) :
    (score_chunks q index).Pairwise fun a b => a.1.id < b.1.id := by
  unfold score_chunks
  exact List.pairwise_map.mpr
    (List.Pairwise.sublist (List.filter_sublist _) hids)

theorem score_chunks_snd (q : List ℚ) (index : IndexData) {p : Chunk × ℝ}
    (hp : p ∈ score_chunks q index) :
    p.2 = cosine_similarity q p.1.embedding := by
  unfold score_chunks at hp
  rcases List.mem_map.mp hp with ⟨c, _, rfl⟩
  rfl

/-- C1: retrieval returns at most k chunks; the result is ordered by
strictly descending cosine similarity with ties broken by ascending chunk
id (given the store invariant that chunks are stored in ascending id
order, which the builder guarantees); and a store with at most k scorable
chunks is returned whole, as a permutation-free reordering with no padding
and no error. -/
theorem retrieve_topk_sorted_tiebreak (q : List ℚ) (index : IndexData)
    (k : Nat)
    (hids : index.chunks.Pairwise fun a b => a.id < b.id) :
    (search_similar_chunks q index k).length ≤ k
  ∧ (search_similar_chunks q index k).Pairwise (fun c1 c2 =>
      cosine_similarity q c2.embedding < cosine_similarity q c1.embedding
      ∨ (cosine_similarity q c1.embedding = cosine_similarity q c2.embedding
          ∧ c1.id < c2.id))
  ∧ ((∀ c ∈ index.chunks, c.embedding ≠ []) → index.chunks.length ≤ k →
      (search_similar_chunks q index k).Perm index.chunks) := by
  refine ⟨?_, ?_, ?_⟩
  · unfold search_similar_chunks
    rw [List.length_map, List.length_take]
    exact min_le_left _ _
  · unfold search_similar_chunks
    apply List.pairwise_map.mpr
    have hmem : ∀ p ∈ (rank (score_chunks q index)).take k,
        p.2 = cosine_similarity q p.1.embedding := by
      intro p hp
      have hp2 : p ∈ rank (score_chunks q index) := List.take_subset _ _ hp
      have hp3 : p ∈ score_chunks q index := by
        unfold rank at hp2
        exact (List.perm_insertionSort scoreLE _).mem_iff.mp hp2
      exact score_chunks_snd q index hp3
    have hpw : ((rank (score_chunks q index)).take k).Pairwise RankedLex := by
      apply List.Pairwise.sublist (List.take_sublist _ _)
      unfold rank
      exact rankedlex_insertionSort _ (score_chunks_pairwise_id q index hids)
    refine List.Pairwise.imp_of_mem ?_ hpw
    intro a b ha hb hab
    have ha2 := hmem a ha
    have hb2 := hmem b hb
    rcases hab with h | ⟨h1, h2⟩
    · exact Or.inl (by rw [← ha2, ← hb2]; exact h)
    · exact Or.inr ⟨by rw [← ha2, ← hb2]; exact h1, h2⟩
  · intro hemb hk
    unfold search_similar_chunks
    have hfilter :
        index.chunks.filter (fun c => !c.embedding.isEmpty) = index.chunks := by
      apply List.filter_eq_self.mpr
      intro c hc
      simpa using hemb c hc
    have hlen : (rank (score_chunks q index)).length = index.chunks.length := by
      unfold rank score_chunks
      rw [List.length_insertionSort, List.length_map, hfilter]
    rw [List.take_of_length_le (by rw [hlen]; exact hk)]
    have hperm : (rank (score_chunks q index)).map (fun p => p.1)
        |>.Perm ((score_chunks q index).map fun p => p.1) := by
      unfold rank
      exact (List.perm_insertionSort scoreLE _).map _
    have heq : (score_chunks q index).map (fun p => p.1) = index.chunks := by
      unfold score_chunks
      rw [List.map_map]
      have hcomp : ((fun p : Chunk × ℝ => p.1)
          ∘ fun c => (c, cosine_similarity q c.embedding)) = id := rfl
      rw [hcomp, List.map_id, hfilter]
    rw [heq] at hperm
    exact hperm

/-- Witness for C1 at a one-chunk store with a length-1 query and k = 5. -/
theorem retrieve_topk_sorted_tiebreak_witness :
    (storeSmall.chunks.Pairwise fun a b => a.id < b.id)
  ∧ ((search_similar_chunks [1] storeSmall 5).length ≤ 5
      ∧ (search_similar_chunks [1] storeSmall 5).Pairwise (fun c1 c2 =>
          cosine_similarity [1] c2.embedding < cosine_similarity [1] c1.embedding
          ∨ (cosine_similarity [1] c1.embedding
                = cosine_similarity [1] c2.embedding
              ∧ c1.id < c2.id))
      ∧ ((∀ c ∈ storeSmall.chunks, c.embedding ≠ []) →
          storeSmall.chunks.length ≤ 5 →
          (search_similar_chunks [1] storeSmall 5).Perm storeSmall.chunks)) :=
  ⟨by decide, retrieve_topk_sorted_tiebreak [1] storeSmall 5 (by decide)⟩
